import Mathlib

/-!
Shallow embedding of the real-time WebSocket client protocol layer of
GitTalk-AI (`frontend/src/context/WebSocketContext.tsx`).

The React state hooks and `useRef` cells of `WebSocketProvider` are modelled
as one record `WSState`; each transport callback (`onopen`, `onmessage`,
`onclose`, `onerror`), the public operations (`connect`, `disconnect`,
`sendMessage`), the reconnect timer callback and the promise continuations
attached to a reconnect-initiated `connect` are modelled as pure functions
on that record.  JavaScript strings are modelled as Lean `String`
(`slice`/`length` count UTF-16 units in JS and code points here; all
protocol tokens are ASCII, so the claims are unaffected).  `JSON.parse` in
the `metadata:`/`suggestions:` branches is kept abstract as a parameter,
since no branch behaviour depends on the parse result beyond success or
failure.  The single-threaded event-loop execution model of the source is
captured by an `Event` type and a `step`/`run` machine: one callback runs
to completion per event.
-/

namespace GitTalk

/-- String helpers defined over the underlying character list so that they
reduce by kernel computation.  `strTake`/`strDrop` model JS `slice`. -/
def strTake (s : String) (n : Nat) : String := String.mk (s.data.take n)

def strDrop (s : String) (n : Nat) : String := String.mk (s.data.drop n)

def strStartsWith (s p : String) : Bool := p.data.isPrefixOf s.data

/-- `interface RepoMetadata` (all fields optional). -/
structure RepoMetadata where
  description : Option String
  language : Option String
  stargazers_count : Option Int
  updated_at : Option String
deriving Repr, DecidableEq

/-- The `connParamsRef` payload: `{ owner, repo, githubToken }`. -/
structure ConnParams where
  owner : String
  repo : String
  githubToken : Option String
deriving Repr, DecidableEq

/-- The provider state: every `useState` hook and every `useRef` cell of
`WebSocketProvider`, plus the transport handle.  `socketPresent` models
`socket !== null`; `socketOpen` models `socket.readyState === OPEN`;
`reconnectTimer` models `reconnectTimeoutRef` holding a pending timer,
recording the delay in milliseconds it was armed with; `pingInterval`
models `pingIntervalRef` holding a live heartbeat interval;
`reconnectInFlight` records that a reconnect-initiated `connect()` promise
has its `.then`/`.catch` continuation still pending. -/
structure WSState where
  socketPresent : Bool
  socketOpen : Bool
  isConnected : Bool
  isProcessing : Bool
  lastMessage : Option String
  suggestions : List String
  repoMetadata : Option RepoMetadata
  isReconnecting : Bool
  statusMessage : Option String
  streamingContent : Option String
  isStreaming : Bool
  errorMessage : Option String
  connecting : Bool
  intentionalClose : Bool
  reconnectAttempts : Nat
  reconnectTimer : Option Nat
  pingInterval : Bool
  connParams : Option ConnParams
  reconnectInFlight : Bool
deriving Repr, DecidableEq

/-- The initial hook values: all flags `false`, all optionals `null`,
`suggestions = []`, `reconnectAttemptsRef = 0`. -/
def initState : WSState where
  socketPresent := false
  socketOpen := false
  isConnected := false
  isProcessing := false
  lastMessage := none
  suggestions := []
  repoMetadata := none
  isReconnecting := false
  statusMessage := none
  streamingContent := none
  isStreaming := false
  errorMessage := none
  connecting := false
  intentionalClose := false
  reconnectAttempts := 0
  reconnectTimer := none
  pingInterval := false
  connParams := none
  reconnectInFlight := false

/-- `const MAX_MESSAGE_LENGTH = 10_000`. -/
def MAX_MESSAGE_LENGTH : Nat := 10000

/-- The six connection-phase error tokens matched exactly in `ws.onmessage`. -/
def connectionFatalTokens : List String :=
  ["error:repo_too_large", "error:repo_not_found", "error:repo_private",
   "error:repo_not_installed", "error:rate_limited", "error:server_busy"]

/-- `statusMap[status] || status`: the fixed status table with verbatim
fallback for unknown keys. -/
def statusMap (status : String) : String :=
  if status = "cloning" then "Fetching repository..."
  else if status = "chunking" then "Analyzing code structure..."
  else if status = "indexing" then "Building knowledge base..."
  else if status = "searching" then "Searching codebase..."
  else if status = "thinking" then "Generating response..."
  else status

/-- `ws.onmessage`, branch for branch in source order.  Returns the updated
state and whether the handler called `ws.close()`.  `parseMeta` and
`parseSugg` stand for `JSON.parse` (plus the `Array.isArray` check for
suggestions); a `none` result is the caught-and-ignored parse failure. -/
def onmessage (parseMeta : String → Option RepoMetadata)
    (parseSugg : String → Option (List String))
    (data : String) (s : WSState) : WSState × Bool :=
  if data = "pong" then (s, false)
  else if data ∈ connectionFatalTokens then
    ({ s with lastMessage := some data, connecting := false,
              isProcessing := false }, true)
  else if data = "error:timeout" then
    ({ s with errorMessage := some "Response timed out. Please try a simpler question.",
              statusMessage := none, isStreaming := false,
              streamingContent := none }, false)
  else if data = "error:keys_exhausted" then
    ({ s with errorMessage := some "Service temporarily unavailable. Please try again in a few minutes.",
              statusMessage := none, isStreaming := false,
              streamingContent := none }, false)
  else if data = "error:generation_failed" ∨ data = "error:retrieval_failed" then
    ({ s with errorMessage := some "Something went wrong. Please try again.",
              statusMessage := none, isStreaming := false,
              streamingContent := none }, false)
  else if data = "error:indexing_failed" then
    ({ s with errorMessage := some "Failed to build knowledge base. Please try again.",
              statusMessage := none, isProcessing := false,
              connecting := false }, true)
  else if data = "error:unexpected" then
    ({ s with lastMessage := some "error:repo_not_found", connecting := false,
              isProcessing := false }, true)
  else if strStartsWith data "status:" then
    ({ s with statusMessage := some (statusMap (strDrop data 7)) }, false)
  else if strStartsWith data "stream:chunk:" then
    ({ s with statusMessage := none, isStreaming := true,
              streamingContent :=
                some ((s.streamingContent.getD "") ++ strDrop data 13) }, false)
  else if data = "stream:end" then
    ({ s with isStreaming := false,
              lastMessage := if (s.streamingContent.getD "") = "" then s.lastMessage
                             else s.streamingContent,
              streamingContent := none }, false)
  else if data = "repo_processed" then
    ({ s with isProcessing := false, statusMessage := none, connecting := false,
              lastMessage := some "repo_processed" }, false)
  else if strStartsWith data "metadata:" then
    (match parseMeta (strDrop data 9) with
     | some m => ({ s with repoMetadata := some m }, false)
     | none => (s, false))
  else if strStartsWith data "suggestions:" then
    (match parseSugg (strDrop data 12) with
     | some l => ({ s with suggestions := l }, false)
     | none => (s, false))
  else
    ({ s with lastMessage := some data }, false)

/-- The state effect of one inbound frame (first component of `onmessage`). -/
def stepMsg (parseMeta : String → Option RepoMetadata)
    (parseSugg : String → Option (List String))
    (s : WSState) (data : String) : WSState :=
  (onmessage parseMeta parseSugg data s).1

/-- Feeding a sequence of inbound frames through `ws.onmessage`. -/
def processFrames (parseMeta : String → Option RepoMetadata)
    (parseSugg : String → Option (List String))
    (frames : List String) (s : WSState) : WSState :=
  frames.foldl (stepMsg parseMeta parseSugg) s

/-- `disconnect()`: flags/timers unconditionally, then — only when a socket
handle is present — close it and reset the session state fields. -/
def disconnect (s : WSState) : WSState :=
  let t := { s with intentionalClose := true, reconnectTimer := none,
                    reconnectAttempts := 0, isReconnecting := false,
                    pingInterval := false }
  if t.socketPresent then
    { t with socketPresent := false, socketOpen := false, isConnected := false,
             isProcessing := false, lastMessage := none, repoMetadata := none,
             statusMessage := none, streamingContent := none,
             isStreaming := false, errorMessage := none, connecting := false }
  else t

/-- `SAFE_PARAM_REGEX = /^[a-zA-Z0-9_.-]+$/` for one character. -/
def safeChar (c : Char) : Bool :=
  c.isAlpha || c.isDigit || c = '_' || c = '.' || c = '-'

/-- One path parameter passes `SAFE_PARAM_REGEX` (nonempty, all safe). -/
def validParam (p : String) : Bool :=
  decide (p.data ≠ []) && p.data.all safeChar

/-- The validation performed at the top of `connect` (regex plus the
100-character caps). -/
def validParams (owner repo : String) : Bool :=
  validParam owner && validParam repo &&
  decide (owner.data.length ≤ 100) && decide (repo.data.length ≤ 100)

/-- How a call to `connect` returned. -/
inductive ConnectResult where
  /-- The `connectingRef` re-entrancy guard was set: immediate return. -/
  | rejectedBusy : ConnectResult
  /-- Validation threw before any state change. -/
  | threwInvalid : ConnectResult
  /-- A fresh transport was created and the promise is pending. -/
  | started : ConnectResult
deriving Repr, DecidableEq

/-- The synchronous body of `connect(owner, repo, githubToken)`: re-entrancy
guard, validation, then set the guard and the intentional-close flag, stash
the parameters, close and null out any existing socket, clear the heartbeat
and install the new (not yet open) transport. -/
def connectStep (p : ConnParams) (s : WSState) : WSState × ConnectResult :=
  if s.connecting then (s, .rejectedBusy)
  else if validParams p.owner p.repo = false then (s, .threwInvalid)
  else
    let t := { s with connecting := true, intentionalClose := false,
                      connParams := some p }
    let t := if t.socketPresent then
               { t with socketPresent := false, socketOpen := false,
                        isConnected := false, isProcessing := false }
             else t
    ({ t with pingInterval := false, socketPresent := true,
              socketOpen := false }, .started)

/-- `ws.onopen`: mark connected, start the heartbeat interval, set
`isProcessing`, resolve the connect promise.  Note it does not touch
`connectingRef` or `reconnectAttemptsRef`. -/
def onopen (s : WSState) : WSState :=
  { s with socketOpen := true, isConnected := true, pingInterval := true,
           isProcessing := true }

/-- `ws.onerror`: clear the guard and the flags, reject the promise. -/
def onerror (s : WSState) : WSState :=
  { s with connecting := false, isConnected := false, isProcessing := false }

/-- `ws.onclose`: tear down, then arm the auto-reconnect timer exactly when
the close was not intentional, parameters are remembered and the attempt
counter is under 3, with delay `2^attempt * 1000` ms.  The second component
reports the delay of the timer armed by this close, if any. -/
def onclose (s : WSState) : WSState × Option Nat :=
  let t := { s with pingInterval := false, isConnected := false,
                    isProcessing := false, socketPresent := false,
                    socketOpen := false, connecting := false }
  if t.intentionalClose = false ∧ t.connParams.isSome = true ∧
     t.reconnectAttempts < 3 then
    ({ t with isReconnecting := true,
              reconnectTimer := some (2 ^ t.reconnectAttempts * 1000) },
     some (2 ^ t.reconnectAttempts * 1000))
  else (t, none)

/-- The `.then` continuation of a reconnect-initiated `connect`: reset the
attempt counter, clear `isReconnecting`. -/
def reconnectResolved (s : WSState) : WSState :=
  { s with reconnectAttempts := 0, isReconnecting := false,
           reconnectInFlight := false }

/-- The `.catch` continuation of a reconnect-initiated `connect`: clear
`isReconnecting` only once the attempt counter has reached the cap. -/
def reconnectRejected (s : WSState) : WSState :=
  if 3 ≤ s.reconnectAttempts then
    { s with isReconnecting := false, reconnectInFlight := false }
  else { s with reconnectInFlight := false }

/-- The reconnect `setTimeout` callback: increment the attempt counter and
call `connect` with the stored parameters, attaching the `.then`/`.catch`
continuations to the returned promise.  `connect` is `async`, so even a
guard return or a validation throw produces a promise; its continuation
runs on a later microtask, modelled by a separate `resolvedEv`/`rejectedEv`
event. -/
def timerFire (s : WSState) : WSState :=
  match s.reconnectTimer, s.connParams with
  | some _, some p =>
      let t := { s with reconnectTimer := none,
                        reconnectAttempts := s.reconnectAttempts + 1 }
      { (connectStep p t).1 with reconnectInFlight := true }
  | _, _ => s

/-- `sendMessage(message)`: only with a handle in the OPEN state; truncate
to `MAX_MESSAGE_LENGTH`, clear the suggestions, transmit.  The second
component is the frame put on the wire, if any. -/
def sendMessage (s : WSState) (message : String) : WSState × Option String :=
  if s.socketPresent = true ∧ s.socketOpen = true then
    ({ s with suggestions := [] }, some (strTake message MAX_MESSAGE_LENGTH))
  else (s, none)

/-- One occurrence on the host event loop: a public call, a transport
callback, a timer callback or a promise continuation. -/
inductive Event where
  | connectCall (p : ConnParams) : Event
  | openEv : Event
  | message (data : String) : Event
  | errorEv : Event
  | closeEv : Event
  | timerFireEv : Event
  | resolvedEv : Event
  | rejectedEv : Event
  | disconnectCall : Event
deriving Repr, DecidableEq

/-- The event-loop step: each event runs its handler to completion.  The
promise-continuation events apply only while a reconnect-initiated
`connect` is in flight. -/
def step (parseMeta : String → Option RepoMetadata)
    (parseSugg : String → Option (List String)) :
    WSState → Event → WSState
  | s, .connectCall p => (connectStep p s).1
  | s, .openEv => onopen s
  | s, .message d => stepMsg parseMeta parseSugg s d
  | s, .errorEv => onerror s
  | s, .closeEv => (onclose s).1
  | s, .timerFireEv => timerFire s
  | s, .resolvedEv => if s.reconnectInFlight then reconnectResolved s else s
  | s, .rejectedEv => if s.reconnectInFlight then reconnectRejected s else s
  | s, .disconnectCall => disconnect s

/-- Running a whole event trace from a state. -/
def run (parseMeta : String → Option RepoMetadata)
    (parseSugg : String → Option (List String))
    (s : WSState) (events : List Event) : WSState :=
  events.foldl (step parseMeta parseSugg) s

/-- The trivial stand-ins for `JSON.parse` used in concrete runs (every
payload fails to parse); branch behaviour relevant to the claims does not
depend on parse success. -/
def pm0 : String → Option RepoMetadata := fun _ => none

def ps0 : String → Option (List String) := fun _ => none

/-- Concrete valid connection parameters for concrete runs. -/
def p0 : ConnParams := { owner := "octocat", repo := "hello", githubToken := none }

end GitTalk

namespace GitTalk

/-- A frame matched by some non-default branch of `ws.onmessage` (the code's
classification; note only `"pong"` is matched as a heartbeat). -/
def classified (data : String) : Bool :=
  decide (data = "pong") || decide (data ∈ connectionFatalTokens) ||
  decide (data = "error:timeout") || decide (data = "error:keys_exhausted") ||
  decide (data = "error:generation_failed") ||
  decide (data = "error:retrieval_failed") ||
  decide (data = "error:indexing_failed") || decide (data = "error:unexpected") ||
  strStartsWith data "status:" || strStartsWith data "stream:chunk:" ||
  decide (data = "stream:end") || decide (data = "repo_processed") ||
  strStartsWith data "metadata:" || strStartsWith data "suggestions:"

/-- A frame whose `ws.onmessage` branch clears the `connectingRef` guard. -/
def clearsConnecting (data : String) : Bool :=
  decide (data ∈ connectionFatalTokens) ||
  decide (data = "error:indexing_failed") ||
  decide (data = "error:unexpected") || decide (data = "repo_processed")

/-- A state just after a successful explicit `connect` and transport open. -/
def openedState : WSState := onopen (connectStep p0 initState).1

section Theorems

/-- The `"pong"` branch returns before any state update. -/
theorem onmessage_pong (parseMeta : String → Option RepoMetadata)
    (parseSugg : String → Option (List String)) (s : WSState) :
    onmessage parseMeta parseSugg "pong" s = (s, false) := rfl

/-- The literal frame `"ping"` matches no branch and falls to the default. -/
theorem onmessage_ping (parseMeta : String → Option RepoMetadata)
    (parseSugg : String → Option (List String)) (s : WSState) :
    onmessage parseMeta parseSugg "ping" s =
      ({ s with lastMessage := some "ping" }, false) := rfl

/-- C5: the claim that a literal `"ping"` frame leaves every state field
unchanged is false: the parser only special-cases `"pong"`, and `"ping"`
falls through to the default branch, which records it as `lastMessage`.
Counterexample at the initial state. -/
theorem C5_counterexample :
    stepMsg pm0 ps0 initState "ping" ≠ initState ∧
    (stepMsg pm0 ps0 initState "ping").lastMessage = some "ping" ∧
    initState.lastMessage = none := by
  refine ⟨by decide, rfl, rfl⟩

/-- C5 (amended): a `"pong"` frame is a heartbeat acknowledgement and leaves
the whole state unchanged; a `"ping"` frame is not specially treated — it is
recorded as a plain final message (`lastMessage := "ping"`), all other
fields unchanged. -/
theorem C5_heartbeat_frames (parseMeta : String → Option RepoMetadata)
    (parseSugg : String → Option (List String)) (s : WSState) :
    onmessage parseMeta parseSugg "pong" s = (s, false) ∧
    onmessage parseMeta parseSugg "ping" s =
      ({ s with lastMessage := some "ping" }, false) :=
  ⟨rfl, rfl⟩

/-- C2: the claim that every ConnectionFatalError-classified frame surfaces
as the persistent `lastMessage` is false for `error:indexing_failed`: that
branch leaves `lastMessage` untouched and surfaces the failure as the
transient `errorMessage` toast text instead (while still closing the
transport). -/
theorem C2_counterexample :
    (onmessage pm0 ps0 "error:indexing_failed" initState).1.lastMessage = none ∧
    (onmessage pm0 ps0 "error:indexing_failed" initState).1.errorMessage =
      some "Failed to build knowledge base. Please try again." ∧
    (onmessage pm0 ps0 "error:indexing_failed" initState).2 = true := by
  refine ⟨rfl, rfl, rfl⟩

/-- C2 (amended): each of the six terminal tokens surfaces as the persistent
`lastMessage` (verbatim) and closes the transport; `error:unexpected`
surfaces as `lastMessage = "error:repo_not_found"` and closes; while
`error:indexing_failed` closes the transport but surfaces as the transient
`errorMessage` toast text, leaving `lastMessage` unchanged. -/
theorem C2_fatal_frames (parseMeta : String → Option RepoMetadata)
    (parseSugg : String → Option (List String)) (s : WSState) :
    (∀ data ∈ connectionFatalTokens,
      onmessage parseMeta parseSugg data s =
        ({ s with lastMessage := some data, connecting := false,
                  isProcessing := false }, true)) ∧
    onmessage parseMeta parseSugg "error:unexpected" s =
      ({ s with lastMessage := some "error:repo_not_found", connecting := false,
                isProcessing := false }, true) ∧
    onmessage parseMeta parseSugg "error:indexing_failed" s =
      ({ s with errorMessage := some "Failed to build knowledge base. Please try again.",
                statusMessage := none, isProcessing := false,
                connecting := false }, true) := by
  refine ⟨?_, rfl, rfl⟩
  intro data h
  simp only [connectionFatalTokens, List.mem_cons, List.not_mem_nil,
    or_false] at h
  rcases h with rfl | rfl | rfl | rfl | rfl | rfl <;> rfl

/-- C2 witness: the amended theorem applied to a concrete token. -/
theorem C2_fatal_frames_witness :
    onmessage pm0 ps0 "error:repo_private" initState =
      ({ initState with lastMessage := some "error:repo_private",
                        connecting := false, isProcessing := false }, true) :=
  (C2_fatal_frames pm0 ps0 initState).1 "error:repo_private" (by decide)

/-- C3: the claim that an unclassified frame clears `isProcessing` is
false: the default branch only records the frame as `lastMessage`.
Counterexample: the unclassified frame `"hello"` arriving while
`isProcessing = true` leaves `isProcessing = true`. -/
theorem C3_counterexample :
    classified "hello" = false ∧
    (stepMsg pm0 ps0 { initState with isProcessing := true } "hello").isProcessing
      = true ∧
    (stepMsg pm0 ps0 { initState with isProcessing := true } "hello").lastMessage
      = some "hello" := by
  refine ⟨by decide, rfl, rfl⟩

/-- C3 (amended): a frame matching none of the classification branches is
recorded as the final message (`lastMessage := frame`) and every other
field — in particular `isProcessing` — is left unchanged. -/
theorem C3_default_frame (parseMeta : String → Option RepoMetadata)
    (parseSugg : String → Option (List String)) (s : WSState) (data : String)
    (h : classified data = false) :
    onmessage parseMeta parseSugg data s =
      ({ s with lastMessage := some data }, false) := by
  simp only [classified, Bool.or_eq_false_iff, decide_eq_false_iff_not] at h
  obtain ⟨⟨⟨⟨⟨⟨⟨⟨⟨⟨⟨⟨⟨h1, h2⟩, h3⟩, h4⟩, h5⟩, h6⟩, h7⟩, h8⟩, h9⟩, h10⟩,
    h11⟩, h12⟩, h13⟩, h14⟩ := h
  simp only [onmessage, h1, h2, h3, h4, h5, h6, h7, h8, h9, h10, h11, h12,
    h13, h14, if_false, or_self, Bool.false_eq_true, ite_false]

/-- C3 witness: the amended theorem applied to the concrete frame
`"hello"`. -/
theorem C3_default_frame_witness :
    onmessage pm0 ps0 "hello" { initState with isProcessing := true }
      = ({ initState with isProcessing := true, lastMessage := some "hello" },
         false) := by
  have h := C3_default_frame pm0 ps0 { initState with isProcessing := true }
    "hello" (by decide)
  exact h

end Theorems

end GitTalk

namespace GitTalk

section Theorems2

/-- A stale post-close state: the transport handle is already gone
(`onclose` ran `setSocket(null)`) while session fields persist. -/
def staleState : WSState :=
  { initState with lastMessage := some "stale", statusMessage := some "s",
                   isStreaming := true, streamingContent := some "buf" }

/-- C4: the claim that `disconnect()` resets all session state fields in
every case is false: the reset block is guarded by `if (socket)`, so with
no live transport handle the session fields survive.  Counterexample: a
state whose socket is already `null` but whose `lastMessage`,
`statusMessage` and streaming fields are populated. -/
theorem C4_counterexample :
    staleState.socketPresent = false ∧
    (disconnect staleState).lastMessage = some "stale" ∧
    (disconnect staleState).statusMessage = some "s" ∧
    (disconnect staleState).isStreaming = true ∧
    (disconnect staleState).streamingContent = some "buf" := by
  refine ⟨rfl, rfl, rfl, rfl, rfl⟩

/-- C4 (amended): `disconnect()` always sets the intentional-close flag,
cancels any pending reconnect timer, resets the attempt counter, clears
`isReconnecting` and the heartbeat; but it closes the transport and resets
the session state fields (`isConnected`, `isProcessing`, `lastMessage`,
`repoMetadata`, `statusMessage`, `streamingContent`, `isStreaming`) only
when a transport handle is present — otherwise those fields are left
unchanged. -/
theorem C4_disconnect (s : WSState) :
    (disconnect s).intentionalClose = true ∧
    (disconnect s).reconnectTimer = none ∧
    (disconnect s).reconnectAttempts = 0 ∧
    (disconnect s).isReconnecting = false ∧
    (disconnect s).pingInterval = false ∧
    (s.socketPresent = true →
      (disconnect s).socketPresent = false ∧
      (disconnect s).isConnected = false ∧
      (disconnect s).isProcessing = false ∧
      (disconnect s).lastMessage = none ∧
      (disconnect s).repoMetadata = none ∧
      (disconnect s).statusMessage = none ∧
      (disconnect s).streamingContent = none ∧
      (disconnect s).isStreaming = false ∧
      (disconnect s).errorMessage = none ∧
      (disconnect s).connecting = false) ∧
    (s.socketPresent = false →
      (disconnect s).isConnected = s.isConnected ∧
      (disconnect s).isProcessing = s.isProcessing ∧
      (disconnect s).lastMessage = s.lastMessage ∧
      (disconnect s).repoMetadata = s.repoMetadata ∧
      (disconnect s).statusMessage = s.statusMessage ∧
      (disconnect s).streamingContent = s.streamingContent ∧
      (disconnect s).isStreaming = s.isStreaming ∧
      (disconnect s).connecting = s.connecting) := by
  by_cases h : s.socketPresent = true
  · simp [disconnect, h]
  · simp only [Bool.not_eq_true] at h
    simp [disconnect, h]

/-- C4 witness: the amended theorem applied to a state with a live socket
(fields reset) and to `staleState` (fields preserved). -/
theorem C4_disconnect_witness :
    (disconnect { staleState with socketPresent := true }).lastMessage = none ∧
    (disconnect staleState).lastMessage = some "stale" ∧
    (disconnect staleState).reconnectAttempts = 0 := by
  refine ⟨((C4_disconnect { staleState with socketPresent := true }).2.2.2.2.2.1
    rfl).2.2.2.1, ?_, (C4_disconnect staleState).2.2.1⟩
  have h := ((C4_disconnect staleState).2.2.2.2.2.2 rfl).2.2.1
  exact h.trans rfl

/-- C1: the claim that no reconnect is scheduled for the closure that
follows a connection-fatal token is false: the fatal branch never sets the
intentional-close flag, so the ensuing `onclose` arms the auto-reconnect
timer.  Counterexample: connect, open, receive `error:rate_limited` (the
handler requests close), then the close event — a reconnect fires with a
1000 ms delay and `isReconnecting` is set. -/
theorem C1_counterexample :
    (onmessage pm0 ps0 "error:rate_limited" openedState).2 = true ∧
    (onmessage pm0 ps0 "error:rate_limited" openedState).1.isProcessing = false ∧
    (onclose (stepMsg pm0 ps0 openedState "error:rate_limited")).2 = some 1000 ∧
    (onclose (stepMsg pm0 ps0 openedState "error:rate_limited")).1.isReconnecting
      = true := by
  refine ⟨rfl, rfl, by decide, by decide⟩

/-- When the intentional-close flag is down, parameters are remembered and
the attempt counter is under the cap, `ws.onclose` arms the reconnect timer
with delay `2 ^ attemptCount * 1000` ms and raises `isReconnecting`. -/
theorem onclose_schedules (s : WSState) (h1 : s.intentionalClose = false)
    (h2 : s.connParams.isSome = true) (h3 : s.reconnectAttempts < 3) :
    (onclose s).2 = some (2 ^ s.reconnectAttempts * 1000) ∧
    (onclose s).1.isReconnecting = true := by
  simp [onclose, h1, h2, h3]

/-- C1 (amended): a connection-fatal token records itself as `lastMessage`,
sets `isProcessing = false` and closes the transport, but auto-reconnect is
NOT suppressed for the closure that follows: the handler leaves the
intentional-close flag untouched, so whenever connection parameters are
remembered and the attempt counter is under the cap, the ensuing close
schedules a reconnect with delay `2 ^ attemptCount * 1000` ms. -/
theorem C1_fatal_reconnect (parseMeta : String → Option RepoMetadata)
    (parseSugg : String → Option (List String)) (s : WSState) (data : String)
    (h : data ∈ connectionFatalTokens) :
    (onmessage parseMeta parseSugg data s).2 = true ∧
    (onmessage parseMeta parseSugg data s).1.isProcessing = false ∧
    (onmessage parseMeta parseSugg data s).1.lastMessage = some data ∧
    (onmessage parseMeta parseSugg data s).1.intentionalClose
      = s.intentionalClose ∧
    (s.intentionalClose = false → s.connParams.isSome = true →
      s.reconnectAttempts < 3 →
      (onclose (onmessage parseMeta parseSugg data s).1).2
        = some (2 ^ s.reconnectAttempts * 1000) ∧
      (onclose (onmessage parseMeta parseSugg data s).1).1.isReconnecting
        = true) := by
  simp only [connectionFatalTokens, List.mem_cons, List.not_mem_nil,
    or_false] at h
  rcases h with rfl | rfl | rfl | rfl | rfl | rfl <;>
    exact ⟨rfl, rfl, rfl, rfl, fun h1 h2 h3 =>
      onclose_schedules _ h1 h2 h3⟩

/-- C1 witness: the amended theorem applied to `error:server_busy` in the
freshly opened state. -/
theorem C1_fatal_reconnect_witness :
    (onmessage pm0 ps0 "error:server_busy" openedState).2 = true ∧
    (onclose (onmessage pm0 ps0 "error:server_busy" openedState).1).2
      = some 1000 := by
  have h := C1_fatal_reconnect pm0 ps0 openedState "error:server_busy"
    (by decide)
  exact ⟨h.1, (h.2.2.2.2 rfl rfl (by decide)).1⟩

end Theorems2

end GitTalk

namespace GitTalk

section Theorems3

/-- C7: a reconnect is scheduled by a close exactly when the close was not
caller-initiated, connection parameters are remembered and the attempt
counter is under 3; the armed delay is `2 ^ attemptCount * 1000` ms (1 s,
2 s, 4 s); the timer callback increments the counter; and once the counter
has reached 3 a close schedules nothing. -/
theorem C7_reconnect_policy (s : WSState) :
    ((onclose s).2.isSome = true ↔
      (s.intentionalClose = false ∧ s.connParams.isSome = true ∧
       s.reconnectAttempts < 3)) ∧
    (s.intentionalClose = false → s.connParams.isSome = true →
      s.reconnectAttempts < 3 →
      (onclose s).2 = some (2 ^ s.reconnectAttempts * 1000) ∧
      (onclose s).1.isReconnecting = true ∧
      (onclose s).1.reconnectTimer = some (2 ^ s.reconnectAttempts * 1000)) ∧
    (∀ d p, s.reconnectTimer = some d → s.connParams = some p →
      (timerFire s).reconnectAttempts = s.reconnectAttempts + 1) ∧
    (3 ≤ s.reconnectAttempts → (onclose s).2 = none) := by
  refine ⟨?_, ?_, ?_, ?_⟩
  · by_cases h : s.intentionalClose = false ∧ s.connParams.isSome = true ∧
      s.reconnectAttempts < 3
    · simp [onclose, h]
    · simp [onclose, h]
  · intro h1 h2 h3
    have h := onclose_schedules s h1 h2 h3
    refine ⟨h.1, h.2, ?_⟩
    simp [onclose, h1, h2, h3]
  · intro d p hd hp
    have ha : ∀ (q : ConnParams) (t : WSState),
        ((connectStep q t).1).reconnectAttempts = t.reconnectAttempts := by
      intro q t
      simp only [connectStep]
      split_ifs <;> rfl
    simp [timerFire, hd, hp, ha]
  · intro h
    have hn : ¬(s.intentionalClose = false ∧ s.connParams.isSome = true ∧
        s.reconnectAttempts < 3) := by
      rintro ⟨-, -, hlt⟩
      omega
    simp [onclose, hn]

/-- A post-close state with parameters remembered and no attempts yet. -/
def rememberedState : WSState := { initState with connParams := some p0 }

/-- A state whose reconnect timer is armed and about to fire. -/
def armedState : WSState :=
  { initState with connParams := some p0, reconnectTimer := some 1000 }

/-- A state whose attempt counter has reached the cap. -/
def cappedState : WSState :=
  { initState with connParams := some p0, reconnectAttempts := 3 }

/-- C7 witness: the policy applied at concrete states — first unintended
close arms a 1000 ms timer, the firing timer bumps the counter to 1, and a
close with the counter at the cap arms nothing. -/
theorem C7_reconnect_policy_witness :
    (onclose rememberedState).2 = some 1000 ∧
    (timerFire armedState).reconnectAttempts = 1 ∧
    (onclose cappedState).2 = none := by
  refine ⟨?_, ?_, ?_⟩
  · exact ((C7_reconnect_policy rememberedState).2.1 rfl rfl (by decide)).1
  · exact (C7_reconnect_policy armedState).2.2.1 1000 p0 rfl rfl
  · exact (C7_reconnect_policy cappedState).2.2.2 (by decide)

/-- An execution refuting the universal counter reset: an explicit connect
whose socket drops, three timed reconnect attempts that all fail (error,
rejected continuation, close), then a fresh explicit `connect` that opens
successfully. -/
def c6Trace : List Event :=
  [Event.connectCall p0, Event.openEv, Event.closeEv,
   Event.timerFireEv, Event.errorEv, Event.rejectedEv, Event.closeEv,
   Event.timerFireEv, Event.errorEv, Event.rejectedEv, Event.closeEv,
   Event.timerFireEv, Event.errorEv, Event.rejectedEv, Event.closeEv,
   Event.connectCall p0, Event.openEv]

/-- C6: the claim that the attempt counter resets to 0 on any successful
open is false: `ws.onopen` never touches `reconnectAttemptsRef`, and only
the promise continuation of a reconnect-initiated `connect` resets it.  In
the execution `c6Trace` the final explicit `connect` reaches the open state
while the counter stays at 3.  The delay conjuncts certify the trace is one
the code produces (timers armed at 1 s, 2 s, 4 s; the final connect
started). -/
theorem C6_counterexample :
    run pm0 ps0 initState c6Trace
      = onopen (run pm0 ps0 initState (c6Trace.take 16)) ∧
    (run pm0 ps0 initState c6Trace).isConnected = true ∧
    (run pm0 ps0 initState c6Trace).reconnectAttempts = 3 ∧
    (run pm0 ps0 initState (c6Trace.take 3)).reconnectTimer = some 1000 ∧
    (run pm0 ps0 initState (c6Trace.take 7)).reconnectTimer = some 2000 ∧
    (run pm0 ps0 initState (c6Trace.take 11)).reconnectTimer = some 4000 ∧
    (connectStep p0 (run pm0 ps0 initState (c6Trace.take 15))).2
      = ConnectResult.started := by
  decide

/-- C6 (amended): the open handler itself leaves the attempt counter
unchanged; the counter is reset to 0 (and `isReconnecting` cleared) only by
the `.then` continuation of a reconnect-initiated `connect` once it
resolves after a successful open — an open reached by an explicit `connect`
call leaves the counter as it was. -/
theorem C6_attempt_reset (parseMeta : String → Option RepoMetadata)
    (parseSugg : String → Option (List String)) (s : WSState) :
    (onopen s).reconnectAttempts = s.reconnectAttempts ∧
    (step parseMeta parseSugg s Event.openEv).reconnectAttempts
      = s.reconnectAttempts ∧
    (s.reconnectInFlight = true →
      step parseMeta parseSugg s Event.resolvedEv = reconnectResolved s ∧
      (reconnectResolved s).reconnectAttempts = 0 ∧
      (reconnectResolved s).isReconnecting = false) ∧
    (s.reconnectInFlight = false →
      step parseMeta parseSugg s Event.resolvedEv = s) := by
  refine ⟨rfl, rfl, fun h => ⟨?_, rfl, rfl⟩, fun h => ?_⟩
  · simp [step, h]
  · simp [step, h]

/-- A state with the continuation of a reconnect-initiated connect pending. -/
def inFlightState : WSState :=
  { initState with reconnectInFlight := true, reconnectAttempts := 2,
                   isReconnecting := true }

/-- C6 witness: the amended theorem applied to `inFlightState`. -/
theorem C6_attempt_reset_witness :
    step pm0 ps0 inFlightState Event.resolvedEv
      = reconnectResolved inFlightState ∧
    (reconnectResolved inFlightState).reconnectAttempts = 0 := by
  have h := (C6_attempt_reset pm0 ps0 inFlightState).2.2.1 rfl
  exact ⟨h.1, h.2.1⟩

end Theorems3

end GitTalk

namespace GitTalk

section Theorems4

/-- The streaming demonstration frame sequence. -/
def streamDemo : List String :=
  ["status:cloning", "stream:chunk:Hello ", "stream:chunk:world", "stream:end"]

/-- Effect of the frame `"status:cloning"`: the mapped status text. -/
theorem stepMsg_status_cloning (pm : String → Option RepoMetadata)
    (ps : String → Option (List String)) (s : WSState) :
    stepMsg pm ps s "status:cloning" =
      { s with statusMessage := some "Fetching repository..." } := rfl

/-- Effect of `"stream:chunk:Hello "`: append to the buffer, no separator. -/
theorem stepMsg_chunk_hello (pm : String → Option RepoMetadata)
    (ps : String → Option (List String)) (s : WSState) :
    stepMsg pm ps s "stream:chunk:Hello " =
      { s with statusMessage := none, isStreaming := true,
               streamingContent :=
                 some ((s.streamingContent.getD "") ++ "Hello ") } := rfl

/-- Effect of `"stream:chunk:world"`: append to the buffer, no separator. -/
theorem stepMsg_chunk_world (pm : String → Option RepoMetadata)
    (ps : String → Option (List String)) (s : WSState) :
    stepMsg pm ps s "stream:chunk:world" =
      { s with statusMessage := none, isStreaming := true,
               streamingContent :=
                 some ((s.streamingContent.getD "") ++ "world") } := rfl

/-- Effect of `"stream:end"`: clear `isStreaming`, promote a truthy buffer
to `lastMessage`, clear the buffer. -/
theorem stepMsg_stream_end (pm : String → Option RepoMetadata)
    (ps : String → Option (List String)) (s : WSState) :
    stepMsg pm ps s "stream:end" =
      { s with isStreaming := false,
               lastMessage := if (s.streamingContent.getD "") = "" then s.lastMessage
                              else s.streamingContent,
               streamingContent := none } := rfl

/-- C8: from any state whose stream buffer is empty (`null` or `""`),
processing `["status:cloning", "stream:chunk:Hello ", "stream:chunk:world",
"stream:end"]` concatenates the chunks in arrival order with no separator
and finalizes: `lastMessage = "Hello world"` and `isStreaming = false`. -/
theorem C8_streaming (pm : String → Option RepoMetadata)
    (ps : String → Option (List String)) (s : WSState)
    (h : s.streamingContent = none ∨ s.streamingContent = some "") :
    (processFrames pm ps streamDemo s).lastMessage = some "Hello world" ∧
    (processFrames pm ps streamDemo s).isStreaming = false := by
  have hb : s.streamingContent.getD "" = "" := by
    rcases h with h | h <;> simp [h]
  simp only [processFrames, streamDemo, List.foldl, stepMsg_status_cloning,
    stepMsg_chunk_hello, stepMsg_chunk_world, stepMsg_stream_end]
  simp only [hb, Option.getD_some]
  rw [if_neg (by decide)]
  exact ⟨by decide, trivial⟩

/-- C8 witness: the theorem applied at the initial state. -/
theorem C8_streaming_witness :
    (processFrames pm0 ps0 streamDemo initState).lastMessage
      = some "Hello world" ∧
    (processFrames pm0 ps0 streamDemo initState).isStreaming = false :=
  C8_streaming pm0 ps0 initState (Or.inl rfl)

/-- C9: with the transport open, `sendMessage` clears the suggestion list
and transmits exactly the first `MAX_MESSAGE_LENGTH` characters of the
input (the input verbatim when it is no longer than that); with the
transport not open it transmits nothing and changes nothing. -/
theorem C9_sendMessage (s : WSState) (text : String) :
    (s.socketPresent = true ∧ s.socketOpen = true →
      sendMessage s text =
        ({ s with suggestions := [] },
         some (strTake text MAX_MESSAGE_LENGTH))) ∧
    (text.data.length ≤ MAX_MESSAGE_LENGTH →
      strTake text MAX_MESSAGE_LENGTH = text) ∧
    (¬(s.socketPresent = true ∧ s.socketOpen = true) →
      sendMessage s text = (s, none)) := by
  refine ⟨fun h => ?_, fun h => ?_, fun h => ?_⟩
  · simp [sendMessage, h]
  · show String.mk (text.data.take MAX_MESSAGE_LENGTH) = text
    rw [List.take_of_length_le h]
  · simp [sendMessage, h]

/-- An open session with a stale follow-up suggestion pending. -/
def c9OpenState : WSState :=
  { initState with socketPresent := true, socketOpen := true,
                   suggestions := ["What does the parser do?"] }

/-- A 15000-character input. -/
def longText : String := String.mk (List.replicate 15000 'x')

/-- C9 witness: a 15000-character message on an open transport transmits
exactly its first 10000 characters and clears the suggestions; on a
non-open transport nothing is sent. -/
theorem C9_sendMessage_witness :
    sendMessage c9OpenState longText =
      ({ c9OpenState with suggestions := [] },
       some (String.mk (List.replicate 10000 'x'))) ∧
    sendMessage initState longText = (initState, none) := by
  constructor
  · have h := (C9_sendMessage c9OpenState longText).1 ⟨rfl, rfl⟩
    rw [h]
    have ht : strTake longText MAX_MESSAGE_LENGTH
        = String.mk (List.replicate 10000 'x') := by
      show String.mk ((List.replicate 15000 'x').take 10000)
        = String.mk (List.replicate 10000 'x')
      rw [List.take_replicate]
      norm_num [min_def]
    rw [ht]
  · exact (C9_sendMessage initState longText).2.2 (by simp [initState])

/-- Any `ws.onmessage` branch other than the six fatal tokens,
`error:indexing_failed`, `error:unexpected` and `repo_processed` leaves the
`connectingRef` re-entrancy guard untouched. -/
theorem connecting_preserved (pm : String → Option RepoMetadata)
    (ps : String → Option (List String)) (s : WSState) (data : String)
    (h : clearsConnecting data = false) :
    (onmessage pm ps data s).1.connecting = s.connecting := by
  simp only [clearsConnecting, Bool.or_eq_false_iff,
    decide_eq_false_iff_not] at h
  obtain ⟨⟨⟨h1, h2⟩, h3⟩, h4⟩ := h
  unfold onmessage
  rcases eq_or_ne data "pong" with rfl | c1
  · rfl
  rw [if_neg c1, if_neg h1]
  rcases eq_or_ne data "error:timeout" with rfl | c3
  · rfl
  rw [if_neg c3]
  rcases eq_or_ne data "error:keys_exhausted" with rfl | c4
  · rfl
  rw [if_neg c4]
  by_cases c5 : data = "error:generation_failed" ∨ data = "error:retrieval_failed"
  · rw [if_pos c5]
  · rw [if_neg c5, if_neg h2, if_neg h3]
    by_cases c8 : strStartsWith data "status:" = true
    · rw [if_pos c8]
    · rw [if_neg c8]
      by_cases c9 : strStartsWith data "stream:chunk:" = true
      · rw [if_pos c9]
      · rw [if_neg c9]
        rcases eq_or_ne data "stream:end" with rfl | c10
        · rfl
        rw [if_neg c10, if_neg h4]
        by_cases c12 : strStartsWith data "metadata:" = true
        · rw [if_pos c12]
          cases pm (strDrop data 9) <;> rfl
        · rw [if_neg c12]
          by_cases c13 : strStartsWith data "suggestions:" = true
          · rw [if_pos c13]
            cases ps (strDrop data 12) <;> rfl
          · rw [if_neg c13]

/-- Frame sequences free of guard-clearing tokens preserve the guard. -/
theorem connecting_preserved_frames (pm : String → Option RepoMetadata)
    (ps : String → Option (List String)) :
    ∀ (frames : List String) (s : WSState),
      (∀ f ∈ frames, clearsConnecting f = false) →
      (processFrames pm ps frames s).connecting = s.connecting := by
  intro frames
  induction frames with
  | nil => intro s _; rfl
  | cons f fs ih =>
      intro s h
      have h1 : clearsConnecting f = false := h f (List.mem_cons_self f fs)
      have h2 : ∀ g ∈ fs, clearsConnecting g = false := fun g hg =>
        h g (List.mem_cons_of_mem f hg)
      have e : processFrames pm ps (f :: fs) s
          = processFrames pm ps fs (stepMsg pm ps s f) := rfl
      rw [e, ih _ h2]
      exact connecting_preserved pm ps s f h1

/-- C10: once `connect` has set the re-entrancy guard, the open handler and
every subsequent frame outside the clearing set (`repo_processed`, the six
fatal tokens, `error:indexing_failed`, `error:unexpected`) leave it set; a
further `connect` call on such a fully open, pre-`repo_processed` session
therefore returns immediately, with no new transport and no state change. -/
theorem C10_connect_guard (pm : String → Option RepoMetadata)
    (ps : String → Option (List String)) (s : WSState) (p : ConnParams)
    (frames : List String) (hc : s.connecting = true)
    (hf : ∀ f ∈ frames, clearsConnecting f = false) :
    (processFrames pm ps frames (onopen s)).connecting = true ∧
    connectStep p (processFrames pm ps frames (onopen s))
      = (processFrames pm ps frames (onopen s),
         ConnectResult.rejectedBusy) := by
  have h1 : (processFrames pm ps frames (onopen s)).connecting = true := by
    rw [connecting_preserved_frames pm ps frames (onopen s) hf]
    exact hc
  refine ⟨h1, ?_⟩
  simp [connectStep, h1]

/-- The state right after the synchronous body of an explicit `connect`. -/
def connectingState : WSState := (connectStep p0 initState).1

/-- Frames that do not clear the re-entrancy guard. -/
def quietFrames : List String :=
  ["status:cloning", "metadata:oops", "stream:chunk:hi"]

/-- C10 witness: the guard theorem applied to a concrete opened session and
a concrete quiet frame sequence. -/
theorem C10_connect_guard_witness :
    (processFrames pm0 ps0 quietFrames (onopen connectingState)).connecting
      = true ∧
    connectStep p0 (processFrames pm0 ps0 quietFrames (onopen connectingState))
      = (processFrames pm0 ps0 quietFrames (onopen connectingState),
         ConnectResult.rejectedBusy) :=
  C10_connect_guard pm0 ps0 connectingState p0 quietFrames (by decide)
    (by decide)

end Theorems4

end GitTalk
